import Mathlib

/-!
# Santa Run: a shallow embedding of `src/game.js`

The class `SantaGame` keeps all of its state in fields of one object.  The
embedding below makes that state an explicit record and each method a function
on it.  JavaScript numbers are modelled as rationals (positions, sizes, speeds)
and integers (scores).  Calls to `Math.random()` are made explicit: every
function that draws random numbers receives the drawn values as an argument.
DOM updates, image loading, drawing and the interval timers do not influence
the fields modelled here and are left out.

A statement of the form `for (let i = xs.length - 1; i >= 0; i--)` is modelled
by a function recursive on the number of indices still to visit, reading
`xs[i]`, writing it back and splicing exactly as the source does.  Reading an
index that is out of range yields `undefined` in JavaScript and the following
property access throws; the loops therefore return `Option`, with `none`
standing for that exception.
-/

namespace SantaRun

/-- The object shape shared by the player (`this.santa`), gifts and obstacles:
`{x, y, width, height, speed}`. -/
structure Box where
  x : ℚ
  y : ℚ
  width : ℚ
  height : ℚ
  speed : ℚ
deriving DecidableEq

/-- The object shape pushed by `createSnowflake`. -/
structure Snowflake where
  x : ℚ
  y : ℚ
  size : ℚ
  speed : ℚ
  wind : ℚ
deriving DecidableEq

/-- The two entries of `this.keys` that `update` reads. -/
structure Keys where
  ArrowLeft : Bool
  ArrowRight : Bool
deriving DecidableEq

/-- The values returned by the calls of `Math.random()` made during one
`update()`: the draw compared with `0.1` and the four draws of
`createSnowflake` (used only when a snowflake is created). -/
structure Rand where
  roll : ℚ
  x : ℚ
  size : ℚ
  speed : ℚ
  wind : ℚ
deriving DecidableEq

/-- The fields of a `SantaGame` instance, together with the canvas size and the
`santaHighScore` entry of `localStorage`. -/
structure GameState where
  canvasWidth : ℚ
  canvasHeight : ℚ
  gameRunning : Bool
  score : Int
  highScore : Int
  stored : Option Int
  santa : Box
  gifts : List Box
  obstacles : List Box
  snowflakes : List Snowflake
  keys : Keys
deriving DecidableEq

/-- `checkCollision(obj1, obj2)`, lines 231-236. -/
def checkCollision (obj1 obj2 : Box) : Bool :=
  decide (obj1.x < obj2.x + obj2.width) &&
  decide (obj1.x + obj1.width > obj2.x) &&
  decide (obj1.y < obj2.y + obj2.height) &&
  decide (obj1.y + obj1.height > obj2.y)

/-- `initializeGame()`, lines 48-63. -/
def initializeGame (s : GameState) : GameState :=
  let santaSize := min (s.canvasWidth * 0.1) 64
  { s with
    santa :=
      { x := s.canvasWidth / 2 - santaSize / 2
        y := s.canvasHeight - santaSize - 20
        width := santaSize
        height := santaSize
        speed := s.canvasWidth * 0.005 }
    gifts := []
    obstacles := []
    snowflakes := [] }

/-- The part of the constructor that sets up the game state, lines 10-22:
`hs` is the result of `parseInt(localStorage.getItem(..)) || 0`. -/
def construct (w h : ℚ) (stored : Option Int) (hs : Int) : GameState :=
  initializeGame
    { canvasWidth := w
      canvasHeight := h
      gameRunning := false
      score := 0
      highScore := hs
      stored := stored
      santa := { x := 0, y := 0, width := 0, height := 0, speed := 0 }
      gifts := []
      obstacles := []
      snowflakes := []
      keys := { ArrowLeft := false, ArrowRight := false } }

/-- The `touchmove` handler, lines 78-87, with `diffX` the drag delta. -/
def touchMove (s : GameState) (diffX : ℚ) : GameState :=
  let newX := s.santa.x + diffX
  let newX := max 0 (min (s.canvasWidth - s.santa.width) newX)
  { s with santa := { s.santa with x := newX } }

/-- `spawnGift()`, lines 123-134, with `r` the value of `Math.random()`. -/
def spawnGift (s : GameState) (r : ℚ) : GameState :=
  if !s.gameRunning then s
  else
    let size := min (s.canvasWidth * 0.05) 30
    { s with
      gifts := s.gifts ++
        [{ x := r * (s.canvasWidth - size)
           y := -size
           width := size
           height := size
           speed := s.canvasHeight * 0.003 }] }

/-- `spawnObstacle()`, lines 136-147, with `r` the value of `Math.random()`. -/
def spawnObstacle (s : GameState) (r : ℚ) : GameState :=
  if !s.gameRunning then s
  else
    let size := min (s.canvasWidth * 0.05) 30
    { s with
      obstacles := s.obstacles ++
        [{ x := r * (s.canvasWidth - size)
           y := -size
           width := size
           height := size
           speed := s.canvasHeight * 0.004 }] }

/-- `createSnowflake()`, lines 149-157. -/
def createSnowflake (s : GameState) (r : Rand) : GameState :=
  { s with
    snowflakes := s.snowflakes ++
      [{ x := r.x * s.canvasWidth
         y := -10
         size := r.size * 3 + 1
         speed := r.speed * 2 + 1
         wind := r.wind * 0.5 - 0.25 }] }

/-- `gameOver()`, lines 238-255. -/
def gameOver (s : GameState) : GameState :=
  let s := { s with gameRunning := false }
  if s.score > s.highScore then
    { s with highScore := s.score, stored := some s.score }
  else s

/-- The first part of `update()`, lines 161-166: the player moves. -/
def movePlayer (s : GameState) : GameState :=
  let s :=
    if s.keys.ArrowLeft then
      { s with santa := { s.santa with x := max 0 (s.santa.x - s.santa.speed) } }
    else s
  if s.keys.ArrowRight then
    { s with santa :=
        { s.santa with x := min (s.canvasWidth - s.santa.width) (s.santa.x + s.santa.speed) } }
  else s

/-- The loop over the gifts in `update()`, lines 169-180; the first argument is
`i + 1` for the index `i` visited next, and `0` once the loop has ended. -/
def giftsLoop : Nat → GameState → Option GameState
  | 0, s => some s
  | i + 1, s =>
    match s.gifts[i]? with
    | none => none
    | some gift =>
      let gift := { gift with y := gift.y + gift.speed }
      let s := { s with gifts := s.gifts.set i gift }
      if checkCollision s.santa gift then
        giftsLoop i { s with score := s.score + 10, gifts := s.gifts.eraseIdx i }
      else if gift.y > s.canvasHeight then
        giftsLoop i { s with gifts := s.gifts.eraseIdx i }
      else giftsLoop i s

/-- The loop over the obstacles in `update()`, lines 183-192. -/
def obstaclesLoop : Nat → GameState → Option GameState
  | 0, s => some s
  | i + 1, s =>
    match s.obstacles[i]? with
    | none => none
    | some obstacle =>
      let obstacle := { obstacle with y := obstacle.y + obstacle.speed }
      let s := { s with obstacles := s.obstacles.set i obstacle }
      if checkCollision s.santa obstacle then
        obstaclesLoop i (gameOver s)
      else if obstacle.y > s.canvasHeight then
        obstaclesLoop i { s with obstacles := s.obstacles.eraseIdx i }
      else obstaclesLoop i s

/-- The loop over the snowflakes in `update()`, lines 197-205. -/
def snowflakesLoop : Nat → GameState → Option GameState
  | 0, s => some s
  | i + 1, s =>
    match s.snowflakes[i]? with
    | none => none
    | some snowflake =>
      let snowflake :=
        { snowflake with y := snowflake.y + snowflake.speed, x := snowflake.x + snowflake.wind }
      let s := { s with snowflakes := s.snowflakes.set i snowflake }
      if snowflake.y > s.canvasHeight then
        snowflakesLoop i { s with snowflakes := s.snowflakes.eraseIdx i }
      else snowflakesLoop i s

/-- `update()`, lines 159-206. -/
def update (s : GameState) (r : Rand) : Option GameState := do
  let s := movePlayer s
  let s ← giftsLoop s.gifts.length s
  let s ← obstaclesLoop s.obstacles.length s
  let s := if r.roll < 0.1 then createSnowflake s r else s
  snowflakesLoop s.snowflakes.length s

/-- `gameLoop()`, lines 257-263: one frame (drawing and the request for the
next frame do not change the state). -/
def gameLoop (s : GameState) (r : Rand) : Option GameState :=
  if s.gameRunning then update s r else some s

/-- `startGame()`, lines 103-121; `r` holds the random draws of the frame that
the call of `gameLoop()` at its end runs. -/
def startGame (s : GameState) (r : Rand) : Option GameState :=
  let s := { s with gameRunning := true, score := 0 }
  let s := initializeGame s
  gameLoop s r

/-- A falling entity after `entity.y += entity.speed`. -/
def advance (b : Box) : Box := { b with y := b.y + b.speed }

/-- A snowflake after `y += speed; x += wind`. -/
def drift (f : Snowflake) : Snowflake := { f with y := f.y + f.speed, x := f.x + f.wind }

/-- An advanced gift stays in the list: no overlap with the player and not
below the canvas. -/
def giftStays (santa : Box) (h : ℚ) (g : Box) : Bool :=
  !checkCollision santa g && !decide (g.y > h)

/-- An advanced obstacle stays in the list: it overlaps the player or is not
below the canvas. -/
def obstacleStays (santa : Box) (h : ℚ) (o : Box) : Bool :=
  checkCollision santa o || !decide (o.y > h)

/-- A drifted snowflake stays in the list. -/
def snowflakeStays (h : ℚ) (f : Snowflake) : Bool := !decide (f.y > h)

/-- Closed form of the gift loop run over the whole list. -/
def giftsPass (s : GameState) : GameState :=
  { s with
    gifts := (s.gifts.map advance).filter (giftStays s.santa s.canvasHeight)
    score := s.score + 10 * ((s.gifts.map advance).countP (checkCollision s.santa)) }

/-- Closed form of the obstacle loop run over the whole list. -/
def obstaclesPass (s : GameState) : GameState :=
  let t :=
    { s with obstacles := (s.obstacles.map advance).filter (obstacleStays s.santa s.canvasHeight) }
  if (s.obstacles.map advance).any (checkCollision s.santa) then gameOver t else t

/-- Closed form of the snowflake loop run over the whole list. -/
def snowflakesPass (s : GameState) : GameState :=
  { s with snowflakes := (s.snowflakes.map drift).filter (snowflakeStays s.canvasHeight) }

/-- Lines 195: a snowflake is created when the draw is below `0.1`. -/
def maybeSnowflake (s : GameState) (r : Rand) : GameState :=
  if r.roll < 0.1 then createSnowflake s r else s

/-- Closed form of `update`. -/
def updatePass (s : GameState) (r : Rand) : GameState :=
  snowflakesPass (maybeSnowflake (obstaclesPass (giftsPass (movePlayer s))) r)

/-- Random draws of a frame that creates no snowflake. -/
def noFlake : Rand := { roll := 1 / 2, x := 0, size := 0, speed := 0, wind := 0 }

/-- A state on a 400 x 600 canvas with no entities, the player at `x`, moving
with `speed`, and the given keys held. -/
def plainState (x speed : ℚ) (left right : Bool) : GameState :=
  { canvasWidth := 400
    canvasHeight := 600
    gameRunning := true
    score := 0
    highScore := 0
    stored := none
    santa := { x := x, y := 540, width := 40, height := 40, speed := speed }
    gifts := []
    obstacles := []
    snowflakes := []
    keys := { ArrowLeft := left, ArrowRight := right } }

/-- The gift loop of `update()` (`giftsLoop`) with a log added: besides the
state it returns the gifts read as `this.gifts[i]`, in the order of the visits.
The state component is computed exactly as in `giftsLoop`. -/
def giftsLoopVisits : Nat → GameState → Option (GameState × List Box)
  | 0, s => some (s, [])
  | i + 1, s =>
    match s.gifts[i]? with
    | none => none
    | some read =>
      let gift := { read with y := read.y + read.speed }
      let s := { s with gifts := s.gifts.set i gift }
      let rest :=
        if checkCollision s.santa gift then
          giftsLoopVisits i { s with score := s.score + 10, gifts := s.gifts.eraseIdx i }
        else if gift.y > s.canvasHeight then
          giftsLoopVisits i { s with gifts := s.gifts.eraseIdx i }
        else giftsLoopVisits i s
      rest.map (fun p => (p.1, read :: p.2))

/-- A state on a 400 x 600 canvas with the player at `x = 180` and one gift at
`x = 10`, `y = 595` falling with speed 10. -/
def lateGiftState : GameState :=
  { canvasWidth := 400
    canvasHeight := 600
    gameRunning := true
    score := 0
    highScore := 0
    stored := none
    santa := { x := 180, y := 540, width := 40, height := 40, speed := 2 }
    gifts := [{ x := 10, y := 595, width := 20, height := 20, speed := 10 }]
    obstacles := []
    snowflakes := []
    keys := { ArrowLeft := false, ArrowRight := false } }

/-- Random draws of a frame that creates a snowflake (the first draw is 0). -/
def flakeDraws : Rand := { roll := 0, x := 1 / 2, size := 1 / 2, speed := 1 / 2, wind := 1 / 2 }

/-- A running state on a 400 x 600 canvas, score 30 and high score 20, with
the player at `x = 180`, `y = 540` and the given obstacles. -/
def obstacleState (obstacles : List Box) : GameState :=
  { canvasWidth := 400
    canvasHeight := 600
    gameRunning := true
    score := 30
    highScore := 20
    stored := some 20
    santa := { x := 180, y := 540, width := 40, height := 40, speed := 2 }
    gifts := []
    obstacles := obstacles
    snowflakes := []
    keys := { ArrowLeft := false, ArrowRight := false } }

/-- An obstacle that overlaps the player of `obstacleState` once advanced. -/
def hitObstacle : Box := { x := 190, y := 530, width := 20, height := 20, speed := 3 }

/-- An obstacle far to the left of the player of `obstacleState`. -/
def farObstacle : Box := { x := 10, y := 100, width := 20, height := 20, speed := 3 }

/-- The values of `e.key` that matter to the game. -/
inductive Key where
  | ArrowLeft
  | ArrowRight
  | other
deriving DecidableEq

/-- The assignment `this.keys[e.key] = v` of the key handlers, lines 68-69. -/
def setKey (ks : Keys) (k : Key) (v : Bool) : Keys :=
  match k with
  | Key.ArrowLeft => { ks with ArrowLeft := v }
  | Key.ArrowRight => { ks with ArrowRight := v }
  | Key.other => ks

/-- What can happen to a constructed game while the canvas keeps its size: a
click on the start or restart button, an `update()` (allowed here in every
state, although `gameLoop` calls it only while the game is running), a touch
drag, a key going down or up, and a tick of either spawn timer. -/
inductive Event where
  | startGame (r : Rand)
  | update (r : Rand)
  | touchMove (diffX : ℚ)
  | keydown (k : Key)
  | keyup (k : Key)
  | spawnGift (r : ℚ)
  | spawnObstacle (r : ℚ)

/-- The state after one event. -/
def step (s : GameState) : Event → Option GameState
  | Event.startGame r => startGame s r
  | Event.update r => update s r
  | Event.touchMove diffX => some (touchMove s diffX)
  | Event.keydown k => some { s with keys := setKey s.keys k true }
  | Event.keyup k => some { s with keys := setKey s.keys k false }
  | Event.spawnGift r => some (spawnGift s r)
  | Event.spawnObstacle r => some (spawnObstacle s r)

/-- The state after a sequence of events. -/
def run (s : GameState) : List Event → Option GameState
  | [] => some s
  | e :: es => (step s e).bind (fun s' => run s' es)

/-- The player as `initializeGame` sets it up for canvas width `w`, and in range. -/
def PlayerInv (w : ℚ) (s : GameState) : Prop :=
  s.canvasWidth = w ∧ s.santa.width = min (w * 0.1) 64 ∧ s.santa.speed = w * 0.005 ∧
    0 ≤ s.santa.x ∧ s.santa.x ≤ w - s.santa.width

theorem getElem?_mid {α : Type} (pre post : List α) (a : α) :
    (pre ++ a :: post)[pre.length]? = some a := by
  induction pre with
  | nil => simp
  | cons b pre ih => simpa using ih

theorem set_mid {α : Type} (pre post : List α) (a b : α) :
    (pre ++ a :: post).set pre.length b = pre ++ b :: post := by
  induction pre with
  | nil => simp
  | cons c pre ih => simp [ih]

theorem eraseIdx_mid {α : Type} (pre post : List α) (a : α) :
    (pre ++ a :: post).eraseIdx pre.length = pre ++ post := by
  induction pre with
  | nil => simp
  | cons c pre ih => simpa using ih

theorem giftsLoop_append (pre : List Box) :
    ∀ (post : List Box) (s : GameState), s.gifts = pre ++ post →
      giftsLoop pre.length s = some
        { s with
          gifts := (pre.map advance).filter (giftStays s.santa s.canvasHeight) ++ post
          score := s.score + 10 * ((pre.map advance).countP (checkCollision s.santa)) } := by
  induction pre using List.reverseRecOn with
  | nil =>
    intro post s h
    simp [giftsLoop, ← h]
  | append_singleton pre g ih =>
    intro post s h
    have h1 : s.gifts = pre ++ g :: post := by simpa using h
    simp only [List.length_append, List.length_singleton, giftsLoop, h1, getElem?_mid,
      set_mid, eraseIdx_mid]
    by_cases hc : checkCollision s.santa { g with y := g.y + g.speed } = true
    · rw [if_pos hc, ih post _ rfl]
      simp [advance, giftStays, hc, List.countP_append, List.filter_append]
      ring
    · rw [if_neg hc]
      by_cases hy : g.y + g.speed > s.canvasHeight
      · rw [if_pos hy, ih post _ rfl]
        simp [advance, giftStays, hc, hy, List.countP_append, List.filter_append]
      · rw [if_neg hy, ih (_ :: post) _ rfl]
        simp [advance, giftStays, hc, hy, List.countP_append, List.filter_append]

theorem gameOver_santa (s : GameState) : (gameOver s).santa = s.santa := by
  unfold gameOver; dsimp only; split <;> rfl

theorem gameOver_obstacles (s : GameState) : (gameOver s).obstacles = s.obstacles := by
  unfold gameOver; dsimp only; split <;> rfl

theorem gameOver_idem (s : GameState) : gameOver (gameOver s) = gameOver s := by
  unfold gameOver; dsimp only
  by_cases h : s.score > s.highScore
  · simp [h]
  · simp [h]

theorem obstaclesLoop_append (pre : List Box) :
    ∀ (post : List Box) (s : GameState), s.obstacles = pre ++ post →
      obstaclesLoop pre.length s = some
        (if (pre.map advance).any (checkCollision s.santa) then
          gameOver { s with obstacles :=
            (pre.map advance).filter (obstacleStays s.santa s.canvasHeight) ++ post }
        else
          { s with obstacles :=
            (pre.map advance).filter (obstacleStays s.santa s.canvasHeight) ++ post }) := by
  induction pre using List.reverseRecOn with
  | nil =>
    intro post s h
    simp [obstaclesLoop, ← h]
  | append_singleton pre g ih =>
    intro post s h
    have h1 : s.obstacles = pre ++ g :: post := by simpa using h
    simp only [List.length_append, List.length_singleton, obstaclesLoop, h1, getElem?_mid,
      set_mid, eraseIdx_mid]
    by_cases hc : checkCollision s.santa { g with y := g.y + g.speed } = true
    · rw [if_pos hc, ih (_ :: post) _ (by rw [gameOver_obstacles])]
      by_cases hs : s.score > s.highScore <;>
        by_cases ha : (pre.map advance).any (checkCollision s.santa) = true <;>
        simp [gameOver, advance, obstacleStays, hc, hs, ha, List.filter_append]
    · rw [if_neg hc]
      by_cases hy : g.y + g.speed > s.canvasHeight
      · rw [if_pos hy, ih post _ rfl]
        simp [advance, obstacleStays, hc, hy, List.filter_append]
      · rw [if_neg hy, ih (_ :: post) _ rfl]
        simp [advance, obstacleStays, hc, hy, List.filter_append]

theorem snowflakesLoop_append (pre : List Snowflake) :
    ∀ (post : List Snowflake) (s : GameState), s.snowflakes = pre ++ post →
      snowflakesLoop pre.length s = some
        { s with snowflakes :=
            (pre.map drift).filter (snowflakeStays s.canvasHeight) ++ post } := by
  induction pre using List.reverseRecOn with
  | nil =>
    intro post s h
    simp [snowflakesLoop, ← h]
  | append_singleton pre g ih =>
    intro post s h
    have h1 : s.snowflakes = pre ++ g :: post := by simpa using h
    simp only [List.length_append, List.length_singleton, snowflakesLoop, h1, getElem?_mid,
      set_mid, eraseIdx_mid]
    by_cases hy : g.y + g.speed > s.canvasHeight
    · rw [if_pos hy, ih post _ rfl]
      simp [drift, snowflakeStays, hy, List.filter_append]
    · rw [if_neg hy, ih (_ :: post) _ rfl]
      simp [drift, snowflakeStays, hy, List.filter_append]

theorem giftsLoop_eq (s : GameState) : giftsLoop s.gifts.length s = some (giftsPass s) := by
  have h := giftsLoop_append s.gifts [] s (by simp)
  simpa [giftsPass] using h

theorem obstaclesLoop_eq (s : GameState) :
    obstaclesLoop s.obstacles.length s = some (obstaclesPass s) := by
  have h := obstaclesLoop_append s.obstacles [] s (by simp)
  simpa [obstaclesPass] using h

theorem snowflakesLoop_eq (s : GameState) :
    snowflakesLoop s.snowflakes.length s = some (snowflakesPass s) := by
  have h := snowflakesLoop_append s.snowflakes [] s (by simp)
  simpa [snowflakesPass] using h

theorem update_eq (s : GameState) (r : Rand) : update s r = some (updatePass s r) := by
  simp [update, updatePass, maybeSnowflake, giftsLoop_eq, obstaclesLoop_eq, snowflakesLoop_eq]

theorem updatePass_santa (s : GameState) (r : Rand) :
    (updatePass s r).santa = (movePlayer s).santa := by
  simp only [updatePass, snowflakesPass, maybeSnowflake, obstaclesPass, createSnowflake,
    giftsPass]
  split <;> split <;> simp [gameOver_santa]

theorem updatePass_canvasWidth (s : GameState) (r : Rand) :
    (updatePass s r).canvasWidth = s.canvasWidth := by
  simp only [updatePass, snowflakesPass, maybeSnowflake, obstaclesPass, createSnowflake,
    giftsPass, movePlayer, gameOver]
  repeat (first | split | rfl)

theorem updatePass_keys (s : GameState) (r : Rand) :
    (updatePass s r).keys = s.keys := by
  simp only [updatePass, snowflakesPass, maybeSnowflake, obstaclesPass, createSnowflake,
    giftsPass, movePlayer, gameOver]
  repeat (first | split | rfl)

theorem updatePass_gifts (s : GameState) (r : Rand) :
    (updatePass s r).gifts = (giftsPass (movePlayer s)).gifts := by
  simp only [updatePass, snowflakesPass, maybeSnowflake, obstaclesPass, createSnowflake,
    gameOver]
  repeat (first | split | rfl)

theorem updatePass_score (s : GameState) (r : Rand) :
    (updatePass s r).score = (giftsPass (movePlayer s)).score := by
  simp only [updatePass, snowflakesPass, maybeSnowflake, obstaclesPass, createSnowflake,
    gameOver]
  repeat (first | split | rfl)

theorem movePlayer_gifts (s : GameState) : (movePlayer s).gifts = s.gifts := by
  simp only [movePlayer]
  repeat (first | split | rfl)

theorem movePlayer_obstacles (s : GameState) : (movePlayer s).obstacles = s.obstacles := by
  simp only [movePlayer]
  repeat (first | split | rfl)

theorem movePlayer_score (s : GameState) : (movePlayer s).score = s.score := by
  simp only [movePlayer]
  repeat (first | split | rfl)

theorem movePlayer_canvasHeight (s : GameState) :
    (movePlayer s).canvasHeight = s.canvasHeight := by
  simp only [movePlayer]
  repeat (first | split | rfl)

theorem checkCollision_eq_true_iff (a b : Box) :
    checkCollision a b = true ↔
      a.x < b.x + b.width ∧ a.x + a.width > b.x ∧
      a.y < b.y + b.height ∧ a.y + a.height > b.y := by
  simp [checkCollision, and_assoc]

/-- C1: `checkCollision(a, b)` is true exactly when the four strict
inequalities of the axis-aligned overlap test hold; boxes whose edges touch
(`a.x + a.width = b.x`) do not collide. -/
theorem checkCollision_iff_strict (a b : Box) :
    (checkCollision a b = true ↔
      a.x < b.x + b.width ∧ a.x + a.width > b.x ∧
      a.y < b.y + b.height ∧ a.y + a.height > b.y) ∧
    (a.x + a.width = b.x → checkCollision a b = false) := by
  constructor
  · exact checkCollision_eq_true_iff a b
  · intro h
    simp [checkCollision, h]

theorem checkCollision_iff_strict_witness :
    ((⟨0, 0, 10, 10, 0⟩ : Box).x + (⟨0, 0, 10, 10, 0⟩ : Box).width = (⟨10, 0, 10, 10, 0⟩ : Box).x) ∧
    checkCollision ⟨0, 0, 10, 10, 0⟩ ⟨10, 0, 10, 10, 0⟩ = false :=
  ⟨by norm_num, (checkCollision_iff_strict ⟨0, 0, 10, 10, 0⟩ ⟨10, 0, 10, 10, 0⟩).2 (by norm_num)⟩

/-- C2: `checkCollision` is symmetric in its two boxes. -/
theorem checkCollision_symm (a b : Box) : checkCollision a b = checkCollision b a := by
  rw [Bool.eq_iff_iff, checkCollision_eq_true_iff a b, checkCollision_eq_true_iff b a]
  constructor <;> (rintro ⟨h1, h2, h3, h4⟩; exact ⟨h2, h1, h4, h3⟩)

theorem gameOver_highScore_eq_max (s : GameState) :
    (gameOver s).highScore = max s.highScore s.score := by
  unfold gameOver
  dsimp only
  by_cases h : s.score > s.highScore
  · simp only [if_pos h]
    rw [max_eq_right (le_of_lt h)]
  · simp only [if_neg h]
    rw [max_eq_left (not_lt.mp h)]

/-- C7: after `gameOver()` the high score is the maximum of the prior high
score and the session score; it does not decrease, and the score is unchanged. -/
theorem gameOver_highScore_max (s : GameState) :
    (gameOver s).highScore = max s.highScore s.score ∧
    s.highScore ≤ (gameOver s).highScore ∧
    (gameOver s).score = s.score := by
  unfold gameOver
  dsimp only
  by_cases h : s.score > s.highScore
  · simp only [if_pos h]
    refine ⟨?_, ?_, trivial⟩
    · rw [max_eq_right (le_of_lt h)]
    · exact le_of_lt h
  · simp only [if_neg h]
    refine ⟨?_, le_refl _, trivial⟩
    rw [max_eq_left (not_lt.mp h)]

theorem movePlayer_canvasWidth (s : GameState) :
    (movePlayer s).canvasWidth = s.canvasWidth := by
  simp only [movePlayer]
  repeat (first | split | rfl)

theorem movePlayer_width (s : GameState) : (movePlayer s).santa.width = s.santa.width := by
  simp only [movePlayer]
  repeat (first | split | rfl)

theorem movePlayer_speed (s : GameState) : (movePlayer s).santa.speed = s.santa.speed := by
  simp only [movePlayer]
  repeat (first | split | rfl)

theorem movePlayer_range (s : GameState) (h0 : 0 ≤ s.santa.x)
    (h1 : s.santa.x ≤ s.canvasWidth - s.santa.width) (hs : 0 ≤ s.santa.speed) :
    0 ≤ (movePlayer s).santa.x ∧ (movePlayer s).santa.x ≤ s.canvasWidth - s.santa.width := by
  have hw : 0 ≤ s.canvasWidth - s.santa.width := le_trans h0 h1
  obtain ⟨cw, ch, gr, sc, hsc, st, ⟨x, y, w, h, sp⟩, g, o, sn, ⟨kl, kr⟩⟩ := s
  dsimp only at h0 h1 hs hw
  cases kl <;> cases kr <;>
    simp only [movePlayer, Bool.false_eq_true, if_false, if_true, le_min_iff, min_le_iff,
      le_max_iff, max_le_iff]
  · exact ⟨h0, h1⟩
  · exact ⟨⟨hw, by linarith⟩, Or.inl (le_refl _)⟩
  · exact ⟨Or.inl (le_refl _), hw, by linarith⟩
  · refine ⟨⟨hw, ?_⟩, Or.inl (le_refl _)⟩
    have : 0 ≤ max 0 (x - sp) := le_max_left _ _
    linarith

/-- C3 (counterexample): on a 400 wide canvas with a 40 wide player, one
`update()` leaves a player at `x = -5` with no key held at `-5`; with only the
right key held and speed 5 a player at `x = -100` moves to `-95`; and with the
left key held and speed `-500` a player at `x = 200` moves to `700`.  In each
case the position after the update is outside `[0, canvasWidth - width]`. -/
theorem update_clamp_counterexample :
    (update (plainState (-5) 5 false false) noFlake).map (fun s =>
        (s.santa.x, decide (0 ≤ s.santa.x ∧ s.santa.x ≤ s.canvasWidth - s.santa.width))) =
      some (-5, false) ∧
    (update (plainState (-100) 5 false true) noFlake).map (fun s =>
        (s.santa.x, decide (0 ≤ s.santa.x ∧ s.santa.x ≤ s.canvasWidth - s.santa.width))) =
      some (-95, false) ∧
    (update (plainState 200 (-500) true false) noFlake).map (fun s =>
        (s.santa.x, decide (0 ≤ s.santa.x ∧ s.santa.x ≤ s.canvasWidth - s.santa.width))) =
      some (700, false) := by
  simp only [update_eq, Option.map_some', updatePass_santa, updatePass_canvasWidth]
  refine ⟨?_, ?_, ?_⟩ <;> simp [movePlayer, plainState] <;> norm_num

/-- C3 (amended): if the player position is in `[0, canvasWidth - width]` and
the speed is not negative, then after one `update()`, whatever keys are held,
the position is again in that range. -/
theorem update_player_in_range (s : GameState) (r : Rand) (h0 : 0 ≤ s.santa.x)
    (h1 : s.santa.x ≤ s.canvasWidth - s.santa.width) (hs : 0 ≤ s.santa.speed) :
    ∃ s', update s r = some s' ∧
      0 ≤ s'.santa.x ∧ s'.santa.x ≤ s'.canvasWidth - s'.santa.width := by
  refine ⟨_, update_eq s r, ?_⟩
  rw [updatePass_santa, updatePass_canvasWidth, movePlayer_width]
  exact movePlayer_range s h0 h1 hs

theorem update_player_in_range_witness :
    ∃ s', update (plainState 200 5 true false) noFlake = some s' ∧
      0 ≤ s'.santa.x ∧ s'.santa.x ≤ s'.canvasWidth - s'.santa.width :=
  update_player_in_range (plainState 200 5 true false) noFlake
    (by simp [plainState]) (by simp [plainState]; norm_num) (by simp [plainState])

/-- C6: one `update()` returns, and the score after it is the score before
plus ten times the number of gifts that, advanced by their speed, overlap the
moved player. -/
theorem update_score (s : GameState) (r : Rand) :
    ∃ s', update s r = some s' ∧
      s'.score = s.score +
        10 * ((s.gifts.map advance).countP (checkCollision (movePlayer s).santa)) := by
  refine ⟨_, update_eq s r, ?_⟩
  rw [updatePass_score]
  simp [giftsPass, movePlayer_gifts, movePlayer_score]

theorem giftsLoopVisits_append (pre : List Box) :
    ∀ (post : List Box) (s : GameState), s.gifts = pre ++ post →
      giftsLoopVisits pre.length s = some
        ({ s with
          gifts := (pre.map advance).filter (giftStays s.santa s.canvasHeight) ++ post
          score := s.score + 10 * ((pre.map advance).countP (checkCollision s.santa)) },
          pre.reverse) := by
  induction pre using List.reverseRecOn with
  | nil =>
    intro post s h
    simp [giftsLoopVisits, ← h]
  | append_singleton pre g ih =>
    intro post s h
    have h1 : s.gifts = pre ++ g :: post := by simpa using h
    simp only [List.length_append, List.length_singleton, giftsLoopVisits, h1, getElem?_mid,
      set_mid, eraseIdx_mid]
    by_cases hc : checkCollision s.santa { g with y := g.y + g.speed } = true
    · rw [if_pos hc, ih post _ rfl]
      simp [advance, giftStays, hc, List.countP_append, List.filter_append]
      ring
    · rw [if_neg hc]
      by_cases hy : g.y + g.speed > s.canvasHeight
      · rw [if_pos hy, ih post _ rfl]
        simp [advance, giftStays, hc, hy, List.countP_append, List.filter_append]
      · rw [if_neg hy, ih (_ :: post) _ rfl]
        simp [advance, giftStays, hc, hy, List.countP_append, List.filter_append]

theorem giftsLoopVisits_eq (s : GameState) :
    giftsLoopVisits s.gifts.length s = some (giftsPass s, s.gifts.reverse) := by
  have h := giftsLoopVisits_append s.gifts [] s (by simp)
  simpa [giftsPass] using h

theorem giftsLoopVisits_fst (n : Nat) :
    ∀ s : GameState, (giftsLoopVisits n s).map Prod.fst = giftsLoop n s := by
  induction n with
  | zero => intro s; simp [giftsLoopVisits, giftsLoop]
  | succ i ih =>
    intro s
    simp only [giftsLoopVisits, giftsLoop]
    cases s.gifts[i]? with
    | none => rfl
    | some read =>
      dsimp only
      rw [Option.map_map]
      split
      · exact ih _
      · split
        · exact ih _
        · exact ih _

/-- C8: one `update()` returns; the gift loop reads every gift of the list
exactly once (the gifts read, in visiting order, are the original list
reversed, and the logged loop computes the same state as the loop itself); the
gift list afterwards is, in the original order, the advanced gifts that neither
overlap the moved player nor lie below the canvas; an advanced gift that does
not overlap the player and lies below the canvas is not in the list
afterwards, and if no gift overlaps the player the score is unchanged. -/
theorem update_gifts (s : GameState) (r : Rand) :
    ∃ s', update s r = some s' ∧
      s'.gifts = (s.gifts.map advance).filter (giftStays (movePlayer s).santa s.canvasHeight) ∧
      giftsLoopVisits (movePlayer s).gifts.length (movePlayer s) =
        some (giftsPass (movePlayer s), s.gifts.reverse) ∧
      (giftsLoopVisits (movePlayer s).gifts.length (movePlayer s)).map Prod.fst =
        giftsLoop (movePlayer s).gifts.length (movePlayer s) ∧
      (∀ g ∈ s.gifts, checkCollision (movePlayer s).santa (advance g) = false →
        (advance g).y > s.canvasHeight → advance g ∉ s'.gifts) ∧
      ((∀ g ∈ s.gifts, checkCollision (movePlayer s).santa (advance g) = false) →
        s'.score = s.score) := by
  have hg : (updatePass s r).gifts =
      (s.gifts.map advance).filter (giftStays (movePlayer s).santa s.canvasHeight) := by
    rw [updatePass_gifts]
    simp [giftsPass, movePlayer_gifts, movePlayer_canvasHeight]
  refine ⟨_, update_eq s r, hg, ?_, giftsLoopVisits_fst _ _, ?_, ?_⟩
  · rw [giftsLoopVisits_eq, movePlayer_gifts]
  · intro g _ hc hy hmem
    rw [hg, List.mem_filter] at hmem
    have := hmem.2
    simp [giftStays, hc] at this
    exact absurd hy (not_lt.mpr this)
  · intro hall
    rw [updatePass_score]
    have h0 : (s.gifts.map advance).countP (checkCollision (movePlayer s).santa) = 0 := by
      rw [List.countP_eq_zero]
      intro a ha
      rw [List.mem_map] at ha
      obtain ⟨g, hg1, rfl⟩ := ha
      simp [hall g hg1]
    simp [giftsPass, movePlayer_gifts, movePlayer_score, h0]

theorem update_gifts_witness :
    ∃ s', update lateGiftState noFlake = some s' ∧ s'.gifts = [] ∧ s'.score = 0 := by
  obtain ⟨s', h, hg, _, _, _, hsc⟩ := update_gifts lateGiftState noFlake
  refine ⟨s', h, ?_, ?_⟩
  · rw [hg]
    simp [lateGiftState, advance, giftStays, movePlayer, checkCollision]
    norm_num
  · rw [hsc]
    · rfl
    · intro g hg
      simp [lateGiftState] at hg
      subst hg
      simp [lateGiftState, advance, movePlayer, checkCollision]
      norm_num

theorem any_advance_iff (santa : Box) (l : List Box) :
    (l.map advance).any (checkCollision santa) = true ↔
      ∃ o ∈ l, checkCollision santa (advance o) = true := by
  simp [List.any_eq_true]

theorem obstaclesPass_gameRunning (t : GameState) :
    (obstaclesPass t).gameRunning =
      (if (t.obstacles.map advance).any (checkCollision t.santa) then false
        else t.gameRunning) := by
  unfold obstaclesPass gameOver
  dsimp only
  split
  · split <;> rfl
  · rfl

theorem obstaclesPass_highScore (t : GameState) :
    (obstaclesPass t).highScore =
      (if (t.obstacles.map advance).any (checkCollision t.santa) then max t.highScore t.score
        else t.highScore) := by
  unfold obstaclesPass
  dsimp only
  split
  · exact (gameOver_highScore_eq_max _)
  · rfl

theorem updatePass_gameRunning (s : GameState) (r : Rand) :
    (updatePass s r).gameRunning = (obstaclesPass (giftsPass (movePlayer s))).gameRunning := by
  simp only [updatePass, snowflakesPass, maybeSnowflake, createSnowflake]
  split <;> rfl

theorem updatePass_highScore (s : GameState) (r : Rand) :
    (updatePass s r).highScore = (obstaclesPass (giftsPass (movePlayer s))).highScore := by
  simp only [updatePass, snowflakesPass, maybeSnowflake, createSnowflake]
  split <;> rfl

theorem movePlayer_gameRunning (s : GameState) :
    (movePlayer s).gameRunning = s.gameRunning := by
  simp only [movePlayer]
  repeat (first | split | rfl)

theorem movePlayer_highScore (s : GameState) : (movePlayer s).highScore = s.highScore := by
  simp only [movePlayer]
  repeat (first | split | rfl)

/-- C9: from a running state one `update()` returns, and it ends with
`gameRunning = false` exactly when some obstacle, advanced by its speed,
overlaps the moved player; when none does, `gameRunning` stays true and the
high score is unchanged. -/
theorem update_gameOver_iff (s : GameState) (r : Rand) (hrun : s.gameRunning = true) :
    ∃ s', update s r = some s' ∧
      (s'.gameRunning = false ↔
        ∃ o ∈ s.obstacles, checkCollision (movePlayer s).santa (advance o) = true) ∧
      ((¬ ∃ o ∈ s.obstacles, checkCollision (movePlayer s).santa (advance o) = true) →
        s'.gameRunning = true ∧ s'.highScore = s.highScore) := by
  refine ⟨_, update_eq s r, ?_, ?_⟩
  · rw [updatePass_gameRunning, obstaclesPass_gameRunning, ← any_advance_iff]
    simp only [giftsPass, movePlayer_obstacles, movePlayer_gameRunning, hrun]
    by_cases h : (s.obstacles.map advance).any (checkCollision (movePlayer s).santa) = true
    · simp [h]
    · simp [h]
  · intro hno
    rw [← any_advance_iff] at hno
    rw [updatePass_gameRunning, obstaclesPass_gameRunning, updatePass_highScore,
      obstaclesPass_highScore]
    simp only [giftsPass, movePlayer_obstacles, movePlayer_gameRunning, movePlayer_highScore,
      hrun, if_neg hno]
    exact ⟨trivial, trivial⟩

theorem update_gameOver_iff_witness :
    ∃ s', update (obstacleState [farObstacle]) noFlake = some s' ∧
      s'.gameRunning = true ∧ s'.highScore = 20 := by
  obtain ⟨s', h, _, hno⟩ := update_gameOver_iff (obstacleState [farObstacle]) noFlake rfl
  refine ⟨s', h, hno ?_⟩
  simp [obstacleState, farObstacle, advance, movePlayer, checkCollision]
  norm_num

theorem obstaclesLoop_hit (t : GameState)
    (h : ∃ o ∈ t.obstacles, checkCollision t.santa (advance o) = true) :
    obstaclesLoop t.obstacles.length t = some
      (gameOver { t with obstacles :=
        (t.obstacles.map advance).filter (obstacleStays t.santa t.canvasHeight) }) := by
  rw [obstaclesLoop_eq]
  simp only [obstaclesPass, (any_advance_iff _ _).2 h, if_true]

/-- C10: `gameOver` is idempotent on the whole state; when at least one
advanced obstacle overlaps the player, the obstacle loop of `update()`, which
calls `gameOver()` once for every such obstacle, ends in the state that a
single `gameOver()` after the loop's list changes gives; and the `update()`
returns with `gameRunning = false`, the score of the gift loop, and the high
score the maximum of the prior high score and that score. -/
theorem gameOver_idempotent :
    (∀ s : GameState, gameOver (gameOver s) = gameOver s) ∧
    (∀ t : GameState, (∃ o ∈ t.obstacles, checkCollision t.santa (advance o) = true) →
      obstaclesLoop t.obstacles.length t = some
        (gameOver { t with obstacles :=
          (t.obstacles.map advance).filter (obstacleStays t.santa t.canvasHeight) })) ∧
    (∀ (s : GameState) (r : Rand),
      (∃ o ∈ s.obstacles, checkCollision (movePlayer s).santa (advance o) = true) →
      ∃ s', update s r = some s' ∧ s'.gameRunning = false ∧
        s'.score = s.score +
          10 * ((s.gifts.map advance).countP (checkCollision (movePlayer s).santa)) ∧
        s'.highScore = max s.highScore s'.score) := by
  refine ⟨gameOver_idem, obstaclesLoop_hit, ?_⟩
  intro s r h
  rw [← any_advance_iff] at h
  refine ⟨_, update_eq s r, ?_, ?_, ?_⟩
  · rw [updatePass_gameRunning, obstaclesPass_gameRunning]
    simp only [giftsPass, movePlayer_obstacles]
    rw [if_pos h]
  · rw [updatePass_score]
    simp [giftsPass, movePlayer_gifts, movePlayer_score]
  · rw [updatePass_highScore, obstaclesPass_highScore, updatePass_score]
    simp only [giftsPass, movePlayer_obstacles, movePlayer_highScore]
    rw [if_pos h]

theorem gameOver_idempotent_witness :
    (obstaclesLoop 2 (obstacleState [hitObstacle, hitObstacle]) = some
      (gameOver (obstacleState [advance hitObstacle, advance hitObstacle]))) ∧
    (∃ s', update (obstacleState [hitObstacle, hitObstacle]) noFlake = some s' ∧
      s'.gameRunning = false ∧ s'.score = 30 ∧ s'.highScore = 30) := by
  have hhit : ∃ o ∈ (obstacleState [hitObstacle, hitObstacle]).obstacles,
      checkCollision (obstacleState [hitObstacle, hitObstacle]).santa (advance o) = true := by
    refine ⟨hitObstacle, by simp [obstacleState], ?_⟩
    simp [obstacleState, hitObstacle, advance, checkCollision]
    norm_num
  constructor
  · have h := gameOver_idempotent.2.1 (obstacleState [hitObstacle, hitObstacle]) hhit
    rw [show (obstacleState [hitObstacle, hitObstacle]).obstacles.length = 2 from rfl] at h
    rw [h]
    simp [obstacleState, hitObstacle, advance, obstacleStays, checkCollision, List.filter_cons]
    norm_num
  · obtain ⟨s', h, h1, h2, h3⟩ :=
      gameOver_idempotent.2.2 (obstacleState [hitObstacle, hitObstacle]) noFlake hhit
    refine ⟨s', h, h1, ?_, ?_⟩
    · rw [h2]
      simp [obstacleState]
    · rw [h3, h2]
      simp [obstacleState]

theorem movePlayer_snowflakes (s : GameState) :
    (movePlayer s).snowflakes = s.snowflakes := by
  simp only [movePlayer]
  repeat (first | split | rfl)

theorem passes_empty (t : GameState) (hg : t.gifts = []) (ho : t.obstacles = []) :
    obstaclesPass (giftsPass t) = t := by
  obtain ⟨cw, ch, gr, sc, hsc, st, sa, g, o, sn, k⟩ := t
  dsimp only at hg ho
  subst hg ho
  simp [giftsPass, obstaclesPass]

theorem startGame_eq (s : GameState) (r : Rand) :
    startGame s r =
      some (updatePass (initializeGame { s with gameRunning := true, score := 0 }) r) := by
  simp [startGame, gameLoop, initializeGame, update_eq]

/-- C5 (counterexample): `startGame()` called on a 400 x 600 canvas when the
first `Math.random()` of the frame it runs returns 0 (and the next four return
1/2) ends with one snowflake in the snowflake collection. -/
theorem startGame_snowflake_counterexample :
    (startGame (plainState 200 5 false false) flakeDraws).map (fun s => s.snowflakes) =
      some [{ x := 200, y := -8, size := 5 / 2, speed := 2, wind := 0 }] := by
  rw [startGame_eq]
  simp [updatePass, snowflakesPass, maybeSnowflake, createSnowflake, obstaclesPass, giftsPass,
    movePlayer, initializeGame, plainState, flakeDraws]
  norm_num [drift, snowflakeStays, List.filter_cons]

/-- C5 (amended): for every prior state `startGame()` returns with score 0 and
empty gift and obstacle collections; the snowflake collection holds nothing
from before the call, and holds exactly the one snowflake created and moved by
the frame that `startGame()` runs when that frame draws a number below 0.1 and
the moved snowflake is not below the canvas, and is empty otherwise. -/
theorem startGame_resets (s : GameState) (r : Rand) :
    ∃ s', startGame s r = some s' ∧ s'.score = 0 ∧ s'.gifts = [] ∧ s'.obstacles = [] ∧
      s'.gameRunning = true ∧
      s'.snowflakes =
        (if r.roll < 0.1 ∧ ¬ (-10 + (r.speed * 2 + 1) > s.canvasHeight) then
          [{ x := r.x * s.canvasWidth + (r.wind * 0.5 - 0.25)
             y := -10 + (r.speed * 2 + 1)
             size := r.size * 3 + 1
             speed := r.speed * 2 + 1
             wind := r.wind * 0.5 - 0.25 }]
        else []) := by
  have hm : obstaclesPass (giftsPass
      (movePlayer (initializeGame { s with gameRunning := true, score := 0 }))) =
      movePlayer (initializeGame { s with gameRunning := true, score := 0 }) :=
    passes_empty _ (by rw [movePlayer_gifts]; rfl) (by rw [movePlayer_obstacles]; rfl)
  refine ⟨_, startGame_eq s r, ?_⟩
  simp only [updatePass, hm]
  by_cases hr : r.roll < 0.1
  · by_cases hy : -10 + (r.speed * 2 + 1) > s.canvasHeight
    · simp [maybeSnowflake, snowflakesPass, createSnowflake, hr, hy, movePlayer_score,
        movePlayer_gifts, movePlayer_obstacles, movePlayer_gameRunning, movePlayer_snowflakes,
        movePlayer_canvasHeight, movePlayer_canvasWidth, initializeGame, drift, snowflakeStays,
        List.filter_cons]
    · simp [maybeSnowflake, snowflakesPass, createSnowflake, hr, hy, movePlayer_score,
        movePlayer_gifts, movePlayer_obstacles, movePlayer_gameRunning, movePlayer_snowflakes,
        movePlayer_canvasHeight, movePlayer_canvasWidth, initializeGame, drift, snowflakeStays,
        List.filter_cons]
  · simp [maybeSnowflake, snowflakesPass, hr, movePlayer_score,
      movePlayer_gifts, movePlayer_obstacles, movePlayer_gameRunning, movePlayer_snowflakes,
      initializeGame]

theorem playerInv_initializeGame (w : ℚ) (hw : 0 ≤ w) (s : GameState)
    (h : s.canvasWidth = w) : PlayerInv w (initializeGame s) := by
  have hm : min (w * 0.1) 64 ≤ w * 0.1 := min_le_left _ _
  have h1 : w * 0.1 ≤ w := by norm_num; linarith
  simp only [PlayerInv, initializeGame, h]
  refine ⟨trivial, trivial, trivial, ?_, ?_⟩ <;> linarith

theorem playerInv_update (w : ℚ) (hw : 0 ≤ w) (s s' : GameState) (r : Rand)
    (h : PlayerInv w s) (hu : update s r = some s') : PlayerInv w s' := by
  rw [update_eq] at hu
  cases hu
  obtain ⟨hc, hwd, hsp, h0, h1⟩ := h
  have hs : 0 ≤ s.santa.speed := by rw [hsp]; positivity
  have hr := movePlayer_range s h0 (by rw [hc]; exact h1) hs
  rw [hc] at hr
  refine ⟨?_, ?_, ?_, ?_, ?_⟩
  · rw [updatePass_canvasWidth, hc]
  · rw [updatePass_santa, movePlayer_width, hwd]
  · rw [updatePass_santa, movePlayer_speed, hsp]
  · rw [updatePass_santa]; exact hr.1
  · rw [updatePass_santa, movePlayer_width]; exact hr.2

theorem playerInv_touchMove (w : ℚ) (s : GameState) (diffX : ℚ) (h : PlayerInv w s) :
    PlayerInv w (touchMove s diffX) := by
  obtain ⟨hc, hwd, hsp, h0, h1⟩ := h
  have hq : 0 ≤ w - s.santa.width := le_trans h0 h1
  refine ⟨hc, hwd, hsp, ?_, ?_⟩
  · exact le_max_left _ _
  · simp only [touchMove, hc]
    exact max_le hq (min_le_left _ _)

theorem playerInv_spawnGift (w : ℚ) (s : GameState) (r : ℚ) (h : PlayerInv w s) :
    PlayerInv w (spawnGift s r) := by
  unfold spawnGift
  split
  · exact h
  · exact h

theorem playerInv_spawnObstacle (w : ℚ) (s : GameState) (r : ℚ) (h : PlayerInv w s) :
    PlayerInv w (spawnObstacle s r) := by
  unfold spawnObstacle
  split
  · exact h
  · exact h

theorem playerInv_step (w : ℚ) (hw : 0 ≤ w) (s : GameState) (e : Event)
    (h : PlayerInv w s) : ∃ s', step s e = some s' ∧ PlayerInv w s' := by
  cases e with
  | startGame r =>
    refine ⟨_, startGame_eq s r, ?_⟩
    exact playerInv_update w hw (initializeGame { s with gameRunning := true, score := 0 }) _ r
      (playerInv_initializeGame w hw _ h.1) (update_eq _ _)
  | update r => exact ⟨_, update_eq s r, playerInv_update w hw _ _ r h (update_eq _ _)⟩
  | touchMove d => exact ⟨_, rfl, playerInv_touchMove w s d h⟩
  | keydown k => exact ⟨_, rfl, h⟩
  | keyup k => exact ⟨_, rfl, h⟩
  | spawnGift r => exact ⟨_, rfl, playerInv_spawnGift w s r h⟩
  | spawnObstacle r => exact ⟨_, rfl, playerInv_spawnObstacle w s r h⟩

theorem playerInv_run (w : ℚ) (hw : 0 ≤ w) (es : List Event) :
    ∀ s : GameState, PlayerInv w s → ∃ s', run s es = some s' ∧ PlayerInv w s' := by
  induction es with
  | nil => intro s h; exact ⟨s, rfl, h⟩
  | cons e es ih =>
    intro s h
    obtain ⟨s1, h1, hi1⟩ := playerInv_step w hw s e h
    obtain ⟨s2, h2, hi2⟩ := ih s1 hi1
    exact ⟨s2, by simp [run, h1, h2], hi2⟩

theorem run_updates_left (rs : List Rand) :
    ∀ s s' : GameState, s.keys.ArrowLeft = true → run s (rs.map Event.update) = some s' →
      s'.keys.ArrowLeft = true := by
  induction rs with
  | nil =>
    intro s s' hk hrun
    simp only [List.map_nil, run, Option.some.injEq] at hrun
    rw [← hrun]; exact hk
  | cons r rs ih =>
    intro s s' hk hrun
    simp only [List.map_cons, run, step, update_eq, Option.some_bind] at hrun
    exact ih _ s' (by rw [updatePass_keys]; exact hk) hrun

theorem movePlayer_initializeGame_x (s : GameState) (hw : 0 ≤ s.canvasWidth) :
    (movePlayer (initializeGame s)).santa.x =
      s.canvasWidth / 2 - min (s.canvasWidth * 0.1) 64 / 2
        - (if s.keys.ArrowLeft then s.canvasWidth * 0.005 else 0)
        + (if s.keys.ArrowRight then s.canvasWidth * 0.005 else 0) := by
  obtain ⟨cw, ch, gr, sc, hsc, st, sa, g, o, sn, ⟨kl, kr⟩⟩ := s
  dsimp only at hw
  have hm : min (cw * 0.1) 64 ≤ cw * 0.1 := min_le_left _ _
  have h1 : cw * 0.1 = cw / 10 := by norm_num; ring
  have h2 : cw * 0.005 = cw / 200 := by norm_num; ring
  have hl : max 0 (cw / 2 - min (cw * 0.1) 64 / 2 - cw * 0.005) =
      cw / 2 - min (cw * 0.1) 64 / 2 - cw * 0.005 := by
    apply max_eq_right; linarith
  cases kl <;> cases kr <;>
    simp only [movePlayer, initializeGame, Bool.false_eq_true, if_false, if_true, hl]
  · ring
  · rw [min_eq_right (by linarith)]
    ring
  · ring
  · rw [min_eq_right (by linarith)]

/-- C4 (counterexample): on a 400 wide canvas `initializeGame` puts the player
at `400/2 - 40/2 = 180` with speed 2; `startGame()` called while the left key
is held returns with the player at 178, and while the right key is held with
the player at 182, because the frame it runs through `gameLoop()` moves the
player.  In both cases `x` differs from `W/2 - size/2`. -/
theorem startGame_position_counterexample :
    (startGame (plainState 5 5 true false) noFlake).map (fun s =>
        (s.santa.x, decide (s.santa.x = s.canvasWidth / 2 - min (s.canvasWidth * 0.1) 64 / 2))) =
      some (178, false) ∧
    (startGame (plainState 5 5 false true) noFlake).map (fun s =>
        (s.santa.x, decide (s.santa.x = s.canvasWidth / 2 - min (s.canvasWidth * 0.1) 64 / 2))) =
      some (182, false) := by
  simp only [startGame_eq, Option.map_some', updatePass_santa, updatePass_canvasWidth]
  refine ⟨?_, ?_⟩ <;> simp [movePlayer, initializeGame, plainState] <;> norm_num

/-- C4 (amended): on a canvas of fixed width `w ≥ 0`, `initializeGame()` (and
so the constructor) puts the player at `w/2 - size/2` with
`size = min(0.1 w, 64)` and speed `0.005 w`; `startGame()` returns with the
player at that position moved by the frame it runs: `0.005 w` to the left if
the left key is held and `0.005 w` to the right if the right key is held, a
position that lies in `[0, w - width]`; every sequence of events (start or
restart, `update()` with any keys held, touch drags with any delta, key and
timer events) runs to a state, and in that state the player `x` lies in
`[0, w - width]`; from such a state, holding the left key for any number of
further updates again runs to a state with `x ≥ 0`. -/
theorem player_in_range_reachable (w h : ℚ) (hw : 0 ≤ w) (stored : Option Int) (hs : Int)
    (es : List Event) :
    (construct w h stored hs).santa.x = w / 2 - min (w * 0.1) 64 / 2 ∧
    (construct w h stored hs).santa.speed = w * 0.005 ∧
    (∀ s0 : GameState, s0.canvasWidth = w →
      (initializeGame s0).santa.x = w / 2 - min (w * 0.1) 64 / 2 ∧
      (initializeGame s0).santa.width = min (w * 0.1) 64 ∧
      (initializeGame s0).santa.speed = w * 0.005 ∧
      0 ≤ (initializeGame s0).santa.x ∧
      (initializeGame s0).santa.x ≤ w - (initializeGame s0).santa.width) ∧
    (∀ (s0 : GameState) (r : Rand), s0.canvasWidth = w →
      ∃ s', startGame s0 r = some s' ∧
        s'.santa.x = w / 2 - min (w * 0.1) 64 / 2
          - (if s0.keys.ArrowLeft then w * 0.005 else 0)
          + (if s0.keys.ArrowRight then w * 0.005 else 0) ∧
        s'.santa.width = min (w * 0.1) 64 ∧ s'.santa.speed = w * 0.005 ∧
        s'.canvasWidth = w ∧
        0 ≤ s'.santa.x ∧ s'.santa.x ≤ w - s'.santa.width) ∧
    ∃ s, run (construct w h stored hs) es = some s ∧
      0 ≤ s.santa.x ∧ s.santa.x ≤ s.canvasWidth - s.santa.width ∧ s.canvasWidth = w ∧
      ∀ rs : List Rand, ∃ s', run s (Event.keydown Key.ArrowLeft :: rs.map Event.update) = some s' ∧
        s'.keys.ArrowLeft = true ∧
        0 ≤ s'.santa.x ∧ s'.santa.x ≤ s'.canvasWidth - s'.santa.width := by
  refine ⟨rfl, rfl, ?_, ?_, ?_⟩
  · intro s0 hc
    have hi := playerInv_initializeGame w hw s0 hc
    refine ⟨?_, hi.2.1, hi.2.2.1, hi.2.2.2.1, hi.2.2.2.2⟩
    simp only [initializeGame, hc]
  · intro s0 r hc
    subst hc
    have hi : PlayerInv s0.canvasWidth
        (initializeGame { s0 with gameRunning := true, score := 0 }) :=
      playerInv_initializeGame _ hw _ rfl
    have hu := playerInv_update _ hw _ _ r hi (update_eq _ _)
    refine ⟨_, startGame_eq s0 r, ?_, hu.2.1, hu.2.2.1, hu.1, hu.2.2.2.1, hu.2.2.2.2⟩
    rw [updatePass_santa]
    exact movePlayer_initializeGame_x { s0 with gameRunning := true, score := 0 } hw
  have h0 : PlayerInv w (construct w h stored hs) := playerInv_initializeGame w hw _ rfl
  obtain ⟨s, hrun, hinv⟩ := playerInv_run w hw es _ h0
  refine ⟨s, hrun, hinv.2.2.2.1, by rw [hinv.1]; exact hinv.2.2.2.2, hinv.1, ?_⟩
  intro rs
  obtain ⟨s', hrun', hinv'⟩ := playerInv_run w hw (Event.keydown Key.ArrowLeft :: rs.map Event.update) s hinv
  refine ⟨s', hrun', ?_, hinv'.2.2.2.1, by rw [hinv'.1]; exact hinv'.2.2.2.2⟩
  simp only [run, step, Option.some_bind] at hrun'
  exact run_updates_left rs _ s' rfl hrun'

theorem player_in_range_reachable_witness :
    (0 : ℚ) ≤ 400 ∧
    (∃ s', startGame (plainState 5 5 true false) noFlake = some s' ∧ s'.santa.x = 178 ∧
      0 ≤ s'.santa.x ∧ s'.santa.x ≤ 400 - s'.santa.width) ∧
    ∃ s, run (construct 400 600 none 0)
        [Event.startGame noFlake, Event.keydown Key.ArrowLeft, Event.update noFlake,
          Event.touchMove (-1000)] = some s ∧
      0 ≤ s.santa.x ∧ s.santa.x ≤ s.canvasWidth - s.santa.width := by
  obtain ⟨_, _, _, hstart, s, h1, h2, h3, _⟩ :=
    player_in_range_reachable 400 600 (by norm_num) none 0
      [Event.startGame noFlake, Event.keydown Key.ArrowLeft, Event.update noFlake,
        Event.touchMove (-1000)]
  obtain ⟨s', hs1, hx, _, _, _, hx0, hx1⟩ := hstart (plainState 5 5 true false) noFlake rfl
  refine ⟨by norm_num, ⟨s', hs1, ?_, hx0, hx1⟩, s, h1, h2, h3⟩
  rw [hx]
  simp [plainState]
  norm_num

end SantaRun
